import Mathlib

/-!
Shallow embedding of the ContactsDB persistence layer (src/src/DB.cpp,
src/include/DB.hpp) and proofs about its specification.

The store (a MariaDB `contacts` table reached through one connection handle)
is modelled as an explicit state:
* `connLive` models `conn_ && conn_->isValid()` (checked by `ensure_connection`,
  DB.cpp:415-420, which throws `DBException("Database connection lost")`,
  a subclass of `std::runtime_error`, NOT of `sql::SQLException`, so it is
  never caught by the `catch (const sql::SQLException&)` blocks);
* `sqlFault` models a store-level fault: when `some m`, every SQL statement
  executed against the store throws `sql::SQLException` with message `m`;
* `rows` are the committed rows, `pending` the uncommitted inserts of the
  current transaction (`commit` publishes `pending`, `rollback` discards it);
* `nextId` models the AUTO_INCREMENT counter (it advances even for inserts
  that are later rolled back, as in MariaDB);
* `autoCommit` models the connection auto-commit flag.

Exceptions are modelled with `Except String`, the `String` being the
`DBException` message exactly as the C++ builds it.
-/

/-- The `Contact` record of include/DB.hpp (id, first_name, last_name,
email, mobile). -/
structure Contact where
  id : Int
  first_name : String
  last_name : String
  email : String
  mobile : String
deriving DecidableEq, Repr

/-- State of the database connection and of the `contacts` table. -/
structure DBState where
  connLive : Bool
  sqlFault : Option String
  rows : List Contact
  pending : List Contact
  nextId : Int
  autoCommit : Bool
deriving DecidableEq, Repr

/-! ### Email validation (DB.cpp:406-410)

`DB::is_valid_email` runs `std::regex_match` (anchored, full-string) with the
pattern `[a-zA-Z0-9._%+-]+@[a-zA-Z0-9.-]+\.[a-zA-Z]{2,}`.  We embed the
regular language directly: character classes plus an executable full-match
decision procedure over all decompositions of the input. -/

/-- Character class `[a-zA-Z0-9._%+-]` (local part of the email pattern). -/
def isLocalChar (c : Char) : Bool :=
  c.isAlpha || c.isDigit || c == '.' || c == '_' || c == '%' || c == '+' || c == '-'

/-- Character class `[a-zA-Z0-9.-]` (domain part of the email pattern). -/
def isDomainChar (c : Char) : Bool :=
  c.isAlpha || c.isDigit || c == '.' || c == '-'

/-- All ways of splitting a list into a prefixed part and a remainder,
used to decide full-string membership in the email regular language. -/
def splitsAux : List Char → List (List Char × List Char)
  | [] => [([], [])]
  | c :: cs => ([], c :: cs) :: (splitsAux cs).map (fun p => (c :: p.1, p.2))

/-- Embedding of `DB::is_valid_email` (DB.cpp:406-410): anchored full-string
match of `[a-zA-Z0-9._%+-]+@[a-zA-Z0-9.-]+\.[a-zA-Z]{2,}`.  The string
matches iff it decomposes as `local ++ "@" ++ domain ++ "." ++ tld` with
nonempty `local` over the local class, nonempty `domain` over the domain
class, and `tld` at least two ASCII letters. -/
def is_valid_email (email : String) : Bool :=
  (splitsAux email.toList).any fun p =>
    match p.2 with
    | [] => false
    | c :: rest =>
      (c == '@') && (!p.1.isEmpty) && p.1.all isLocalChar &&
      ((splitsAux rest).any fun q =>
        match q.2 with
        | [] => false
        | d :: tld =>
          (d == '.') && (!q.1.isEmpty) && q.1.all isDomainChar &&
          decide (2 ≤ tld.length) && tld.all Char.isAlpha)

/-- The email shape as the spec describes it: ASCII letters/digits/`._%+-`
local part, `@`, dot-separated domain, TLD of at least 2 letters. -/
def EmailShape (s : String) : Prop :=
  ∃ L D T : List Char,
    s.toList = L ++ '@' :: (D ++ '.' :: T) ∧
    L ≠ [] ∧ (∀ c ∈ L, isLocalChar c = true) ∧
    D ≠ [] ∧ (∀ c ∈ D, isDomainChar c = true) ∧
    2 ≤ T.length ∧ (∀ c ∈ T, c.isAlpha = true)

/-- The guard under which an email passes validation in `insert_contact` /
`update_contact` (DB.cpp:97, DB.cpp:135): the field is empty (optional) or
`is_valid_email` accepts it.  This is the spec's `validateEmail`. -/
def emailFieldOk (email : String) : Bool :=
  email.isEmpty || is_valid_email email

/-- Embedding of the name check at DB.cpp:93 / DB.cpp:131: validation passes
iff NOT both names are empty (no trimming is performed by the source). -/
def validate_names (first last : String) : Bool :=
  !(first.isEmpty && last.isEmpty)

/-- Whitespace in the sense of the spec's trimming rule (space, tab, CR, LF). -/
def isSpecWS (c : Char) : Bool :=
  c == ' ' || c == '\t' || c == '\r' || c == '\n'

/-- Leading and trailing whitespace stripped, as the spec's trimming rule
describes. -/
def trimWS (s : String) : String :=
  String.mk (((s.toList.dropWhile isSpecWS).reverse.dropWhile isSpecWS).reverse)

/-- The name-validation rule as the SPEC states it (spec 4.3), for comparison
with the source's `validate_names`: true iff at least one of the two names is
non-empty after trimming leading/trailing whitespace. -/
def validateNamesSpec (first last : String) : Bool :=
  !((trimWS first).isEmpty && (trimWS last).isEmpty)

/-! ### Column allowlist (DB.cpp:422-432) -/

/-- The allowlist `valid_columns` of `DB::sanitize_column_name`. -/
def valid_columns : List String :=
  ["id", "first_name", "last_name", "email", "mobile"]

/-- Embedding of `DB::sanitize_column_name` (DB.cpp:422-432): a member of the
allowlist is returned verbatim, anything else maps to the default
`"last_name"`. -/
def sanitize_column_name (column : String) : String :=
  if column ∈ valid_columns then column else "last_name"

/-! ### Ordering used by `ORDER BY last_name, first_name` -/

/-- Sort key of the `ORDER BY last_name, first_name` clause
(DB.cpp:229, DB.cpp:266): lexicographic on (last_name, first_name). -/
def nameKey (c : Contact) : Lex (String × String) :=
  toLex (c.last_name, c.first_name)

/-- The row order produced by `ORDER BY last_name, first_name` ascending. -/
def nameLe (a b : Contact) : Prop :=
  nameKey a ≤ nameKey b

instance : DecidableRel nameLe :=
  fun a b => inferInstanceAs (Decidable (nameKey a ≤ nameKey b))

instance : IsTotal Contact nameLe :=
  ⟨fun a b => le_total (nameKey a) (nameKey b)⟩

instance : IsTrans Contact nameLe :=
  ⟨fun _ _ _ h h2 => le_trans h h2⟩

/-- The store's `ORDER BY last_name, first_name` on a result set, modelled as
a stable sort by that key. -/
def sortByName (l : List Contact) : List Contact :=
  l.insertionSort nameLe

/-! ### The repository operations (DB.cpp) -/

/-- Effect of executing the prepared
`INSERT INTO contacts (first_name,last_name,email,mobile) VALUES (?,?,?,?)`:
the row receives AUTO_INCREMENT id `nextId`; under auto-commit it is
immediately durable, inside a transaction it stays pending. -/
def sqlInsert (st : DBState) (c : Contact) : DBState :=
  if st.autoCommit then
    { st with rows := st.rows ++ [c], nextId := st.nextId + 1 }
  else
    { st with pending := st.pending ++ [c], nextId := st.nextId + 1 }

/-- Embedding of `DB::insert_contact` (DB.cpp:88-120): validate names, then
email, then `ensure_connection` (whose `DBException` propagates), then run the
INSERT (an `sql::SQLException` is re-thrown as `"Insert error: "` + message).
The C++ function returns `void`; on success the model returns `()`. -/
def insert_contact (st : DBState) (first last email mobile : String) :
    Except String Unit × DBState :=
  if first.isEmpty && last.isEmpty then
    (.error "At least first name or last name must be provided", st)
  else if !email.isEmpty && !is_valid_email email then
    (.error "Invalid email format", st)
  else if !st.connLive then
    (.error "Database connection lost", st)
  else
    match st.sqlFault with
    | some m => (.error ("Insert error: " ++ m), st)
    | none =>
      (.ok (), sqlInsert st ⟨st.nextId, first, last, email, mobile⟩)

/-- Effect of the `UPDATE contacts SET ... WHERE id=?` row rewrite on a list. -/
def applyUpdate (id : Int) (first last email mobile : String)
    (l : List Contact) : List Contact :=
  l.map fun c =>
    if c.id == id then
      { c with first_name := first, last_name := last,
               email := email, mobile := mobile }
    else c

/-- Embedding of `DB::update_contact` (DB.cpp:125-162): validate names, then
email, then `ensure_connection`; the UPDATE affecting zero rows raises
`DBException("Contact not found with ID: " + id)` which propagates (it is not
an `sql::SQLException`). -/
def update_contact (st : DBState) (id : Int)
    (first last email mobile : String) : Except String Unit × DBState :=
  if first.isEmpty && last.isEmpty then
    (.error "At least first name or last name must be provided", st)
  else if !email.isEmpty && !is_valid_email email then
    (.error "Invalid email format", st)
  else if !st.connLive then
    (.error "Database connection lost", st)
  else
    match st.sqlFault with
    | some m => (.error ("Update error: " ++ m), st)
    | none =>
      if (st.rows ++ st.pending).any (fun c => c.id == id) then
        (.ok (), { st with
          rows := applyUpdate id first last email mobile st.rows,
          pending := applyUpdate id first last email mobile st.pending })
      else
        (.error ("Contact not found with ID: " ++ toString id), st)

/-- Embedding of `DB::delete_contact` (DB.cpp:167-185): no validation;
`ensure_connection`; DELETE affecting zero rows raises
`DBException("Contact not found with ID: " + id)`, which propagates. -/
def delete_contact (st : DBState) (id : Int) : Except String Unit × DBState :=
  if !st.connLive then
    (.error "Database connection lost", st)
  else
    match st.sqlFault with
    | some m => (.error ("Delete error: " ++ m), st)
    | none =>
      if (st.rows ++ st.pending).any (fun c => c.id == id) then
        (.ok (), { st with
          rows := st.rows.filter (fun c => !(c.id == id)),
          pending := st.pending.filter (fun c => !(c.id == id)) })
      else
        (.error ("Contact not found with ID: " ++ toString id), st)

/-- Embedding of `DB::get_contact_by_id` (DB.cpp:190-217): the
`ensure_connection` `DBException` propagates (not an `sql::SQLException`),
but a query-level `sql::SQLException` is caught, logged to stderr, and the
function falls through to `return std::nullopt` — the same value as a
negative lookup. -/
def get_contact_by_id (st : DBState) (id : Int) :
    Except String (Option Contact) :=
  if !st.connLive then
    .error "Database connection lost"
  else
    match st.sqlFault with
    | some _ => .ok none
    | none => .ok ((st.rows ++ st.pending).find? (fun c => c.id == id))

/-- Embedding of `DB::get_all_contacts` (DB.cpp:222-248):
`SELECT ... ORDER BY last_name, first_name`; the `ensure_connection`
`DBException` propagates, a query-level `sql::SQLException` is caught and the
empty vector is returned. -/
def get_all_contacts (st : DBState) : Except String (List Contact) :=
  if !st.connLive then
    .error "Database connection lost"
  else
    match st.sqlFault with
    | some _ => .ok []
    | none => .ok (sortByName (st.rows ++ st.pending))

/-- The `LIKE %query%` filter of `DB::search_contacts` on one row:
case-insensitive substring match against first name, last name, email or
mobile. -/
def likeAny (query : String) (c : Contact) : Bool :=
  let pat := query.toLower.toList
  decide (pat <:+: c.first_name.toLower.toList) ||
  decide (pat <:+: c.last_name.toLower.toList) ||
  decide (pat <:+: c.email.toLower.toList) ||
  decide (pat <:+: c.mobile.toLower.toList)

/-- Embedding of `DB::search_contacts` (DB.cpp:253-291): an empty query
returns `get_all_contacts()` before any SQL; otherwise filter by the
four-field `LIKE` with the same `ORDER BY` as `get_all_contacts`. -/
def search_contacts (st : DBState) (query : String) :
    Except String (List Contact) :=
  if query.isEmpty then
    get_all_contacts st
  else if !st.connLive then
    .error "Database connection lost"
  else
    match st.sqlFault with
    | some _ => .ok []
    | none => .ok (sortByName ((st.rows ++ st.pending).filter (likeAny query)))

/-- Embedding of `DB::get_contact_count` (DB.cpp:331-347): the
`ensure_connection` `DBException` propagates; a query-level
`sql::SQLException` is caught and `0` is returned. -/
def get_contact_count (st : DBState) : Except String Int :=
  if !st.connLive then
    .error "Database connection lost"
  else
    match st.sqlFault with
    | some _ => .ok 0
    | none => .ok (st.rows ++ st.pending).length

/-- Embedding of `DB::test_connection` (DB.cpp:41-54): `ensure_connection`
(whose `DBException` is NOT caught by the `catch (const sql::SQLException&)`
clause and so propagates), then `SELECT 1`; an `sql::SQLException` from the
query collapses to `false`. -/
def test_connection (st : DBState) : Except String Bool :=
  if !st.connLive then
    .error "Database connection lost"
  else
    match st.sqlFault with
    | some _ => .ok false
    | none => .ok true

/-- The insert loop of `DB::import_contacts` (DB.cpp:382-393) together with
the surrounding commit/catch logic: each record is inserted with the shared
prepared statement; a record the store rejects raises `sql::SQLException`,
caught by the handler which rolls back (discarding `pending`), restores
auto-commit and returns `false`; if all succeed, `commit()` publishes the
pending rows, auto-commit is restored and `true` is returned.  `reject c`
models "the store raises a constraint violation on record `c`". -/
def importLoop (reject : Contact → Bool) :
    DBState → List Contact → Except String Bool × DBState
  | st, [] =>
    (.ok true,
      { st with rows := st.rows ++ st.pending, pending := [],
                autoCommit := true })
  | st, c :: cs =>
    if reject c then
      (.ok false, { st with pending := [], autoCommit := true })
    else
      importLoop reject (sqlInsert st c) cs

/-- Embedding of `DB::import_contacts` (DB.cpp:370-401): `ensure_connection`
first (its `DBException` propagates — it is not an `sql::SQLException`), then
`setAutoCommit(false)`, the insert loop, `commit()` and
`setAutoCommit(true)`; any `sql::SQLException` is caught: rollback, restore
auto-commit, return `false`.  A connection-wide fault (`sqlFault = some m`)
makes the first SQL statement fail, landing in the same handler. -/
def import_contacts (reject : Contact → Bool) (st : DBState)
    (contacts : List Contact) : Except String Bool × DBState :=
  if !st.connLive then
    (.error "Database connection lost", st)
  else
    match st.sqlFault with
    | some _ =>
      (.ok false, { st with pending := [], autoCommit := true })
    | none => importLoop reject { st with autoCommit := false } contacts

/-! ### Helper lemmas -/

/-- `splitsAux` enumerates exactly the decompositions of a list. -/
theorem mem_splitsAux {l : List Char} {p : List Char × List Char} :
    p ∈ splitsAux l ↔ l = p.1 ++ p.2 := by
  induction l generalizing p with
  | nil =>
    obtain ⟨p1, p2⟩ := p
    constructor
    · intro h
      simp [splitsAux] at h
      simp [h.1, h.2]
    · intro h
      have h2 := List.append_eq_nil.mp h.symm
      simp [splitsAux]
      exact ⟨h2.1, h2.2⟩
  | cons c cs ih =>
    obtain ⟨p1, p2⟩ := p
    constructor
    · intro h
      simp only [splitsAux] at h
      rcases List.mem_cons.mp h with heq | hmem
      · rw [heq]
        simp
      · obtain ⟨q, hq, heq⟩ := List.mem_map.mp hmem
        have hcs := ih.mp hq
        rw [← heq]
        simp [hcs]
    · intro h
      cases p1 with
      | nil =>
        simp at h
        simp [splitsAux, h]
      | cons a t =>
        simp at h
        obtain ⟨rfl, hcs⟩ := h
        have hm : (t, p2) ∈ splitsAux cs := ih.mpr hcs
        have hmm := List.mem_map_of_mem
          (fun p : List Char × List Char => (c :: p.1, p.2)) hm
        simp only [splitsAux]
        exact List.mem_cons_of_mem _ hmm

/-- The executable matcher `is_valid_email` decides exactly the email shape
described by the spec (the language of the source's regex). -/
theorem is_valid_email_iff (s : String) :
    is_valid_email s = true ↔ EmailShape s := by
  constructor
  · intro h
    rw [is_valid_email, List.any_eq_true] at h
    obtain ⟨⟨p1, p2⟩, hmem, hp⟩ := h
    have hsplit : s.toList = p1 ++ p2 := mem_splitsAux.mp hmem
    cases p2 with
    | nil => simp at hp
    | cons c rest =>
      simp only [Bool.and_eq_true, beq_iff_eq, Bool.not_eq_true',
        List.any_eq_true, List.all_eq_true] at hp
      obtain ⟨⟨⟨hc, hne⟩, hall⟩, ⟨q1, q2⟩, hqmem, hq⟩ := hp
      have hrest : rest = q1 ++ q2 := mem_splitsAux.mp hqmem
      cases q2 with
      | nil => simp at hq
      | cons d tld =>
        simp only [Bool.and_eq_true, beq_iff_eq, Bool.not_eq_true',
          List.all_eq_true, decide_eq_true_eq] at hq
        obtain ⟨⟨⟨⟨hd, hqne⟩, hqall⟩, hlen⟩, htall⟩ := hq
        refine ⟨p1, q1, tld, ?_, ?_, hall, ?_, hqall, hlen, htall⟩
        · rw [hsplit, hc, hrest, hd]
        · intro hcon; rw [hcon] at hne; simp at hne
        · intro hcon; rw [hcon] at hqne; simp at hqne
  · rintro ⟨L, D, T, hs, hL, hLall, hD, hDall, hT, hTall⟩
    rw [is_valid_email, List.any_eq_true]
    refine ⟨(L, '@' :: (D ++ '.' :: T)), mem_splitsAux.mpr hs, ?_⟩
    simp only [Bool.and_eq_true, beq_iff_eq, Bool.not_eq_true',
      List.any_eq_true, List.all_eq_true]
    refine ⟨⟨⟨trivial, ?_⟩, hLall⟩, (D, '.' :: T), mem_splitsAux.mpr rfl, ?_⟩
    · simpa using hL
    · simp only [Bool.and_eq_true, beq_iff_eq, Bool.not_eq_true',
        List.all_eq_true, decide_eq_true_eq]
      exact ⟨⟨⟨⟨trivial, by simpa using hD⟩, hDall⟩, hT⟩, hTall⟩

/-- Two strings with distinct first characters are distinct, even after
appending: used to tell the different `DBException` messages apart. -/
theorem string_append_ne (pre m t : String) (c d : Char)
    (hp : pre.data.head? = some c) (ht : t.data.head? = some d)
    (hcd : c ≠ d) : pre ++ m ≠ t := by
  intro h
  have h1 : (pre ++ m).data.head? = some c := by
    rw [String.data_append]
    cases hd : pre.data with
    | nil => rw [hd] at hp; simp at hp
    | cons a tl =>
      rw [hd] at hp
      simpa using hp
  rw [h, ht] at h1
  simp at h1
  exact hcd h1.symm

/-- `find?` skips a block in which the predicate never holds. -/
theorem find?_append_none {l1 l2 : List Contact} {p : Contact → Bool}
    (h : ∀ c ∈ l1, p c = false) : (l1 ++ l2).find? p = l2.find? p := by
  induction l1 with
  | nil => simp
  | cons a t ih =>
    have ha := h a (List.mem_cons_self a t)
    rw [List.cons_append, List.find?_cons_of_neg _ (by simp [ha])]
    exact ih fun c hc => h c (List.mem_cons_of_mem a hc)

/-- Both names passing the source's check, given they are not both `""`. -/
theorem names_check_passes {first last : String}
    (h : ¬(first = "" ∧ last = "")) :
    (first.isEmpty && last.isEmpty) = false := by
  cases hf : first.isEmpty <;> cases hl : last.isEmpty <;>
    simp_all [String.isEmpty_iff]

/-- The email guard of DB.cpp:97 does not fire when `emailFieldOk` holds. -/
theorem email_check_passes {email : String} (h : emailFieldOk email = true) :
    (!email.isEmpty && !is_valid_email email) = false := by
  rw [emailFieldOk, Bool.or_eq_true] at h
  rcases h with h | h <;> simp [h]

/-- Inside the transaction (auto-commit off), a rejected record makes the
insert loop roll back: it reports `false`, discards `pending`, leaves the
committed rows untouched and restores auto-commit. -/
theorem importLoop_fail (reject : Contact → Bool) :
    ∀ (cs : List Contact) (st : DBState), st.autoCommit = false →
      cs.any reject = true →
      ∃ st2, importLoop reject st cs = (.ok false, st2) ∧
        st2.rows = st.rows ∧ st2.pending = [] ∧ st2.autoCommit = true ∧
        st2.connLive = st.connLive ∧ st2.sqlFault = st.sqlFault := by
  intro cs
  induction cs with
  | nil =>
    intro st hA hF
    simp at hF
  | cons c cs ih =>
    intro st hA hF
    by_cases hr : reject c = true
    · refine ⟨{ st with pending := [], autoCommit := true }, ?_, by simp⟩
      simp [importLoop, hr]
    · have hr2 : reject c = false := by simpa using hr
      rw [List.any_cons, hr2, Bool.false_or] at hF
      have hstep : sqlInsert st c =
          { st with pending := st.pending ++ [c], nextId := st.nextId + 1 } := by
        simp [sqlInsert, hA]
      obtain ⟨st2, heq, hrows, hpend, hac, hcl, hsf⟩ :=
        ih (sqlInsert st c) (by rw [hstep]; exact hA) (by exact hF)
      refine ⟨st2, ?_, ?_, hpend, hac, ?_, ?_⟩
      · rw [importLoop, hr2]
        simpa using heq
      · rw [hrows, hstep]
      · rw [hcl, hstep]
      · rw [hsf, hstep]

/-! ### Concrete states used by witnesses and counterexamples -/

/-- A healthy connection over an empty table. -/
def baseSt : DBState := ⟨true, none, [], [], 1, true⟩

/-- A lost connection (`conn_->isValid()` false). -/
def deadSt : DBState := ⟨false, none, [], [], 1, true⟩

/-- A live connection whose SQL statements all fail, over a table holding the
row with id 1. -/
def faultSt : DBState :=
  ⟨true, some "Lost connection to server during query",
   [⟨1, "Ada", "Lovelace", "", ""⟩], [], 2, true⟩

/-! ### Claims -/

/-- C2: `sanitize_column_name` is a total function into the allowlist: for
every string `s` the result is a member of
`{id, first_name, last_name, email, mobile}`; a member is returned verbatim
and any non-member (including the injection payload
`"email; DROP TABLE x"`) maps to the default `"last_name"`. -/
theorem sanitize_column_name_allowlist (s : String) :
    sanitize_column_name s ∈ valid_columns ∧
    (s ∈ valid_columns → sanitize_column_name s = s) ∧
    (s ∉ valid_columns → sanitize_column_name s = "last_name") ∧
    sanitize_column_name "email; DROP TABLE x" = "last_name" := by
  by_cases h : s ∈ valid_columns
  · exact ⟨by rw [sanitize_column_name, if_pos h]; exact h,
      fun _ => by simp [sanitize_column_name, h],
      fun hn => absurd h hn, by decide⟩
  · refine ⟨?_, fun hm => absurd hm h,
      fun _ => by simp [sanitize_column_name, h], by decide⟩
    rw [sanitize_column_name, if_neg h]
    decide

/-- Witness for C2 at the member `"email"` and, via the last conjunct, at the
injection payload. -/
theorem sanitize_column_name_allowlist_witness :
    sanitize_column_name "email" = "email" ∧
    sanitize_column_name "email; DROP TABLE x" = "last_name" := by
  have h := sanitize_column_name_allowlist "email"
  exact ⟨h.2.1 (by decide), h.2.2.2⟩

/-- C3: the email validation applied by the writers (`emailFieldOk`, the
guard of DB.cpp:97) accepts a string iff it is empty or has the email shape
of the source's anchored full-string regex; in particular `"a@b.co"` is
accepted, `"not-an-email"` rejected, `""` accepted. -/
theorem email_validation_iff_shape (s : String) :
    (emailFieldOk s = true ↔ s = "" ∨ EmailShape s) ∧
    emailFieldOk "a@b.co" = true ∧
    emailFieldOk "not-an-email" = false ∧
    emailFieldOk "" = true := by
  refine ⟨?_, by decide, by decide, by decide⟩
  rw [emailFieldOk, Bool.or_eq_true]
  exact or_congr (String.isEmpty_iff s) (is_valid_email_iff s)

/-- C9: for every store state, `search("")` returns exactly the result of
`getAll()`, and every successful `getAll()` result is sorted by
`(last_name, first_name)` ascending. -/
theorem search_empty_eq_get_all (st : DBState) :
    search_contacts st "" = get_all_contacts st ∧
    (∀ l, get_all_contacts st = .ok l → l.Sorted nameLe) := by
  constructor
  · rfl
  · intro l hl
    rw [get_all_contacts] at hl
    by_cases hc : st.connLive = true
    · rw [hc] at hl
      simp only [Bool.not_true, Bool.false_eq_true, if_false] at hl
      cases hsf : st.sqlFault with
      | some m =>
        rw [hsf] at hl
        simp only [Except.ok.injEq] at hl
        rw [← hl]
        exact List.sorted_nil
      | none =>
        rw [hsf] at hl
        simp only [Except.ok.injEq] at hl
        rw [← hl]
        exact List.sorted_insertionSort nameLe _
    · have hc2 : st.connLive = false := by simpa using hc
      rw [hc2] at hl
      simp at hl

/-- Witness for C9 at a concrete state (empty table, live connection). -/
theorem search_empty_eq_get_all_witness :
    search_contacts baseSt "" = get_all_contacts baseSt ∧
    List.Sorted nameLe [] := by
  have h := search_empty_eq_get_all baseSt
  exact ⟨h.1, h.2 [] rfl⟩

/-- C10: with a live, fault-free connection outside any transaction,
importing the empty sequence returns `true` and leaves the store state
completely unchanged. -/
theorem import_empty_returns_true (reject : Contact → Bool) (st : DBState)
    (hL : st.connLive = true) (hS : st.sqlFault = none)
    (hP : st.pending = []) (hA : st.autoCommit = true) :
    import_contacts reject st [] = (.ok true, st) := by
  obtain ⟨cl, sf, rows, pend, ni, ac⟩ := st
  simp only at hL hS hP hA
  subst hL; subst hS; subst hP; subst hA
  simp [import_contacts, importLoop]

/-- Witness for C10 at a concrete state. -/
theorem import_empty_returns_true_witness :
    import_contacts (fun _ => false) baseSt [] = (.ok true, baseSt) :=
  import_empty_returns_true (fun _ => false) baseSt rfl rfl rfl rfl

/-- C5: with a live, fault-free connection and valid fields, `update` and
`delete` on an id not present in the store both fail with the not-found
`DBException` (`"Contact not found with ID: <id>"`), and the state — hence
the row count — is unchanged by the failed call. -/
theorem update_delete_absent_not_found (st : DBState) (id : Int)
    (first last email mobile : String)
    (hL : st.connLive = true) (hS : st.sqlFault = none)
    (hN : ¬(first = "" ∧ last = "")) (hE : emailFieldOk email = true)
    (hA : ∀ c ∈ st.rows ++ st.pending, c.id ≠ id) :
    update_contact st id first last email mobile =
      (.error ("Contact not found with ID: " ++ toString id), st) ∧
    delete_contact st id =
      (.error ("Contact not found with ID: " ++ toString id), st) := by
  have hv := names_check_passes hN
  have he := email_check_passes hE
  have hany : (st.rows ++ st.pending).any (fun c => c.id == id) = false := by
    cases hcase : (st.rows ++ st.pending).any (fun c => c.id == id) with
    | false => rfl
    | true =>
      obtain ⟨c, hc, hcc⟩ := List.any_eq_true.mp hcase
      exact absurd (by simpa using hcc) (hA c hc)
  constructor
  · simp [update_contact, hv, he, hL, hS, hany]
  · simp [delete_contact, hL, hS, hany]

/-- Witness for C5: updating and deleting the absent id 42 over an empty
table both report the not-found exception and leave the state alone. -/
theorem update_delete_absent_not_found_witness :
    update_contact baseSt 42 "Ada" "" "" "" =
      (.error ("Contact not found with ID: " ++ toString (42 : Int)), baseSt) ∧
    delete_contact baseSt 42 =
      (.error ("Contact not found with ID: " ++ toString (42 : Int)), baseSt) :=
  update_delete_absent_not_found baseSt 42 "Ada" "" "" "" rfl rfl
    (by simp) (by decide) (by simp [baseSt])

/-- C6 counterexample: with a lost connection, `test_connection` does not
return a boolean — the `DBException` thrown by `ensure_connection` escapes
the `catch (const sql::SQLException&)` clause (DB.cpp:41-54), refuting
"testConnection never raises". -/
theorem test_connection_raises_when_lost :
    deadSt.connLive = false ∧
    test_connection deadSt = .error "Database connection lost" :=
  ⟨rfl, rfl⟩

/-- C6 (amended): with a valid connection handle, `test_connection` returns
a boolean and never raises: `true` when the round-trip succeeds, `false`
when the probe query fails with an `sql::SQLException`. -/
theorem test_connection_boolean_when_live (st : DBState)
    (hL : st.connLive = true) :
    (st.sqlFault = none → test_connection st = .ok true) ∧
    (∀ m, st.sqlFault = some m → test_connection st = .ok false) :=
  ⟨fun h => by simp [test_connection, hL, h],
   fun m h => by simp [test_connection, hL, h]⟩

/-- Witness for C6 (amended) at a healthy and at a faulted live connection. -/
theorem test_connection_boolean_when_live_witness :
    test_connection baseSt = .ok true ∧ test_connection faultSt = .ok false :=
  ⟨(test_connection_boolean_when_live baseSt rfl).1 rfl,
   (test_connection_boolean_when_live faultSt rfl).2
     "Lost connection to server during query" rfl⟩

/-- C7 counterexample: a store fault during the query and a negative lookup
produce the SAME outcome `none` — here the row with id 1 exists in
`faultSt.rows`, yet the faulted query returns exactly what the negative
lookup over an empty table returns, refuting "never collapsed". -/
theorem get_by_id_fault_collapses_to_absent :
    get_contact_by_id faultSt 1 = .ok none ∧
    get_contact_by_id baseSt 1 = .ok none ∧
    (∃ c ∈ faultSt.rows, c.id = 1) :=
  ⟨rfl, rfl, ⟨⟨1, "Ada", "Lovelace", "", ""⟩, by simp [faultSt], rfl⟩⟩

/-- C7 (amended): with a live connection, `get_contact_by_id` reports a
query-level store fault as `none`, indistinguishable from a negative lookup
(the fault is only logged to stderr); with no fault it returns the first
matching row or `none`.  Only a lost connection yields a distinct outcome
(the propagating `DBException`). -/
theorem get_by_id_collapses_fault_and_absence (st : DBState) (id : Int)
    (hL : st.connLive = true) :
    (∀ m, st.sqlFault = some m → get_contact_by_id st id = .ok none) ∧
    (st.sqlFault = none →
      get_contact_by_id st id =
        .ok ((st.rows ++ st.pending).find? fun c => c.id == id)) :=
  ⟨fun m h => by simp [get_contact_by_id, hL, h],
   fun h => by simp [get_contact_by_id, hL, h]⟩

/-- Witness for C7 (amended): the faulted state collapses to `none` even
though the row is present. -/
theorem get_by_id_collapses_fault_and_absence_witness :
    get_contact_by_id faultSt 1 = .ok none :=
  (get_by_id_collapses_fault_and_absence faultSt 1 rfl).1
    "Lost connection to server during query" rfl

/-- C8 counterexample: `DB::insert_contact` returns `void` — on success the
operation's value is the unit value `()`, carrying no store-assigned id, so
"insert ... returns the store-assigned id" is false already at this concrete
valid input. -/
theorem insert_returns_unit_not_id :
    (insert_contact baseSt "Ada" "Lovelace" "ada@example.com" "+44123").1 =
      Except.ok () := rfl

/-- C8 (amended): with a live, fault-free connection and valid fields,
`insert` succeeds (returning no value — the C++ function is `void`); the
store assigns the next AUTO_INCREMENT id, and `get_contact_by_id` at that id
immediately afterwards yields exactly `{nextId, first, last, email, mobile}`. -/
theorem insert_roundtrip_at_next_id (st : DBState)
    (first last email mobile : String)
    (hL : st.connLive = true) (hS : st.sqlFault = none)
    (hN : ¬(first = "" ∧ last = "")) (hE : emailFieldOk email = true)
    (hF : ∀ c ∈ st.rows ++ st.pending, c.id < st.nextId) :
    (insert_contact st first last email mobile).1 = .ok () ∧
    get_contact_by_id (insert_contact st first last email mobile).2 st.nextId =
      .ok (some ⟨st.nextId, first, last, email, mobile⟩) := by
  have hv := names_check_passes hN
  have he := email_check_passes hE
  have hins : insert_contact st first last email mobile =
      (.ok (), sqlInsert st ⟨st.nextId, first, last, email, mobile⟩) := by
    simp [insert_contact, hv, he, hL, hS]
  rw [hins]
  refine ⟨rfl, ?_⟩
  have hold : ∀ c ∈ st.rows ++ st.pending, (c.id == st.nextId) = false := by
    intro c hc
    exact beq_eq_false_iff_ne.mpr (ne_of_lt (hF c hc))
  by_cases hac : st.autoCommit = true
  · have hs2 : sqlInsert st ⟨st.nextId, first, last, email, mobile⟩ =
        { st with rows := st.rows ++ [⟨st.nextId, first, last, email, mobile⟩],
                  nextId := st.nextId + 1 } := by
      simp [sqlInsert, hac]
    rw [hs2]
    simp only [get_contact_by_id, hL, hS, Bool.not_true, Bool.false_eq_true,
      if_false]
    rw [List.append_assoc,
      find?_append_none (fun c hc => hold c (List.mem_append_left _ hc)),
      List.singleton_append]
    simp [List.find?]
  · have hac2 : st.autoCommit = false := by simpa using hac
    have hs2 : sqlInsert st ⟨st.nextId, first, last, email, mobile⟩ =
        { st with
            pending := st.pending ++ [⟨st.nextId, first, last, email, mobile⟩],
            nextId := st.nextId + 1 } := by
      simp [sqlInsert, hac2]
    rw [hs2]
    simp only [get_contact_by_id, hL, hS, Bool.not_true, Bool.false_eq_true,
      if_false]
    rw [← List.append_assoc, find?_append_none hold]
    simp [List.find?]

/-- Witness for C8 (amended): inserting Ada Lovelace into the empty store and
reading back id 1. -/
theorem insert_roundtrip_at_next_id_witness :
    (insert_contact baseSt "Ada" "Lovelace" "ada@example.com" "+44123").1 =
      .ok () ∧
    get_contact_by_id
        (insert_contact baseSt "Ada" "Lovelace" "ada@example.com" "+44123").2
        baseSt.nextId =
      .ok (some ⟨baseSt.nextId, "Ada", "Lovelace", "ada@example.com",
        "+44123"⟩) :=
  insert_roundtrip_at_next_id baseSt "Ada" "Lovelace" "ada@example.com"
    "+44123" rfl rfl (by simp) (by decide) (by simp [baseSt])

/-- C4 counterexample: the source does NOT trim before testing — with
`first = " "` (whitespace-only) and `last = ""` the insert succeeds, although
the trimming rule stated by the claim classifies both names as empty and
demands rejection. -/
theorem insert_accepts_whitespace_only_names :
    (insert_contact baseSt " " "" "" "").1 = Except.ok () ∧
    validateNamesSpec " " "" = false ∧
    validate_names " " "" = true :=
  ⟨rfl, rfl, rfl⟩

/-- C4 (amended): name validation tests literal emptiness without trimming:
it passes iff at least one name is a non-empty string, and `insert` / `update`
reject with the name `ValidationError` exactly when both names are the empty
string. -/
theorem name_validation_untrimmed (st : DBState) (id : Int)
    (first last email mobile : String) :
    (validate_names first last = true ↔ ¬(first = "" ∧ last = "")) ∧
    ((insert_contact st first last email mobile).1 =
        .error "At least first name or last name must be provided" ↔
      first = "" ∧ last = "") ∧
    ((update_contact st id first last email mobile).1 =
        .error "At least first name or last name must be provided" ↔
      first = "" ∧ last = "") := by
  have hne3 : ∀ m : String, "Insert error: " ++ m ≠
      "At least first name or last name must be provided" := fun m =>
    string_append_ne _ m _ 'I' 'A' rfl rfl (by decide)
  have hne4 : ∀ m : String, "Update error: " ++ m ≠
      "At least first name or last name must be provided" := fun m =>
    string_append_ne _ m _ 'U' 'A' rfl rfl (by decide)
  have hne5 : ∀ i : Int, "Contact not found with ID: " ++ toString i ≠
      "At least first name or last name must be provided" := fun i =>
    string_append_ne _ _ _ 'C' 'A' rfl rfl (by decide)
  by_cases hb : first = "" ∧ last = ""
  · obtain ⟨rfl, rfl⟩ := hb
    exact ⟨by decide, ⟨fun _ => ⟨rfl, rfl⟩, fun _ => rfl⟩,
      ⟨fun _ => ⟨rfl, rfl⟩, fun _ => rfl⟩⟩
  · have hv := names_check_passes hb
    refine ⟨?_, ?_, ?_⟩
    · simp only [validate_names, hv, Bool.not_false]
      exact ⟨fun _ => hb, fun _ => trivial⟩
    · constructor
      · intro h
        exfalso
        simp only [insert_contact, hv, Bool.false_eq_true, if_false] at h
        split at h
        · simp at h
        · split at h
          · simp at h
          · split at h
            · next m _ => exact hne3 m (by simpa using h)
            · simp at h
      · intro hcon
        exact absurd hcon hb
    · constructor
      · intro h
        exfalso
        simp only [update_contact, hv, Bool.false_eq_true, if_false] at h
        split at h
        · simp at h
        · split at h
          · simp at h
          · split at h
            · next m _ => exact hne4 m (by simpa using h)
            · split at h
              · simp at h
              · exact hne5 id (by simpa using h)
      · intro hcon
        exact absurd hcon hb

/-- Witness for C4 (amended) at concrete inputs on both sides of the rule. -/
theorem name_validation_untrimmed_witness :
    (validate_names "Ada" "" = true ↔ ¬("Ada" = "" ∧ "" = "")) ∧
    ((insert_contact baseSt "" "" "" "").1 =
        .error "At least first name or last name must be provided" ↔
      ("" : String) = "" ∧ ("" : String) = "") := by
  have h1 := name_validation_untrimmed baseSt 1 "Ada" "" "" ""
  have h2 := name_validation_untrimmed baseSt 1 "" "" "" ""
  exact ⟨h1.1, h2.2.1⟩

/-- C1 counterexample: with a lost connection, `import_contacts` does not
report failure through its boolean — the `DBException` thrown by
`ensure_connection` (DB.cpp:373) is not an `sql::SQLException` and escapes
the catch clause, refuting "failure is reported only by the boolean return
value, never by raising an exception". -/
theorem import_raises_when_conn_lost :
    deadSt.connLive = false ∧
    import_contacts (fun _ => false) deadSt [⟨0, "Ada", "Lovelace", "", ""⟩] =
      (.error "Database connection lost", deadSt) :=
  ⟨rfl, rfl⟩

/-- C1 (amended): with a live, fault-free connection outside any transaction,
`import_contacts` is all-or-nothing: if any record is rejected by the store,
the call returns the boolean `false` (no exception), the committed rows — and
hence the row count — are exactly what they were before the call, no insert
survives (`pending` empty), and auto-commit is restored.  (With a lost
connection the operation instead raises the connection-lost `DBException`,
like every other operation.) -/
theorem import_contacts_atomic_on_failure (reject : Contact → Bool)
    (st : DBState) (contacts : List Contact)
    (hL : st.connLive = true) (hS : st.sqlFault = none)
    (hP : st.pending = []) (hF : contacts.any reject = true) :
    ∃ st2, import_contacts reject st contacts = (.ok false, st2) ∧
      st2.rows = st.rows ∧ st2.pending = [] ∧ st2.autoCommit = true ∧
      get_contact_count st2 = get_contact_count st := by
  have hstart : import_contacts reject st contacts =
      importLoop reject { st with autoCommit := false } contacts := by
    simp [import_contacts, hL, hS]
  obtain ⟨st2, heq, hrows, hpend, hac, hcl, hsf⟩ :=
    importLoop_fail reject contacts { st with autoCommit := false } rfl hF
  have hrows2 : st2.rows = st.rows := hrows
  have hcl2 : st2.connLive = true := by rw [hcl]; exact hL
  have hsf2 : st2.sqlFault = none := by rw [hsf]; exact hS
  refine ⟨st2, by rw [hstart]; exact heq, hrows2, hpend, hac, ?_⟩
  simp only [get_contact_count, hcl2, hsf2, hL, hS, Bool.not_true,
    Bool.false_eq_true, if_false]
  rw [hpend, hP, hrows2]

/-- A healthy connection over a table holding one committed row. -/
def oneRowSt : DBState :=
  ⟨true, none, [⟨1, "Ada", "Lovelace", "", ""⟩], [], 2, true⟩

/-- Witness for C1 (amended): importing two records of which the second
violates a store constraint returns `false` and leaves the one-row store
unchanged. -/
theorem import_contacts_atomic_on_failure_witness :
    ∃ st2,
      import_contacts (fun c => c.first_name == "Bad") oneRowSt
          [⟨0, "Eva", "Curie", "", ""⟩, ⟨0, "Bad", "Row", "", ""⟩] =
        (.ok false, st2) ∧
      st2.rows = oneRowSt.rows ∧ st2.pending = [] ∧ st2.autoCommit = true ∧
      get_contact_count st2 = get_contact_count oneRowSt :=
  import_contacts_atomic_on_failure (fun c => c.first_name == "Bad") oneRowSt
    [⟨0, "Eva", "Curie", "", ""⟩, ⟨0, "Bad", "Row", "", ""⟩]
    rfl rfl rfl (by decide)
